import Mathlib

/-!
Shallow embedding of the site-deployment automation tool
(`config_reader.py`, `svn_manager.py`, `deployment_executor.py`).

External effects (subprocess invocations, the filesystem, the persisted
tag-counter file) are made explicit: command outcomes are inputs, the
filesystem is a finite map threaded through the functions, and the counter
store is the parsed content of `last_tag_version.txt` (`none` models the
file being absent or unparseable, which the source maps to the baseline 39).
A Python function that may raise is modelled with `Except`; a `try/except`
block that swallows the error is modelled by the corresponding branch.
-/

/-- Kernel-reducible model of Python `str.startswith`. -/
def strStartsWith (s p : String) : Bool := p.data.isPrefixOf s.data

/-- Kernel-reducible model of Python `str.endswith`. -/
def strEndsWith (s p : String) : Bool := p.data.isSuffixOf s.data

/-- Kernel-reducible model of Python `str.upper` (ASCII, as used here). -/
def strToUpper (s : String) : String := String.mk (s.data.map Char.toUpper)

/-- Substring occurrence test on character lists. -/
def listContainsSub (pat : List Char) : List Char → Bool
  | [] => pat.isEmpty
  | c :: cs => pat.isPrefixOf (c :: cs) || listContainsSub pat cs

/-- Kernel-reducible model of Python `pat in s`. -/
def strContains (s pat : String) : Bool := listContainsSub pat.data s.data

/-- Model of `os.path.join` on two components (separator choice is immaterial
to every property proved below; the source runs on Windows paths). -/
def pjoin (a b : String) : String := a ++ "/" ++ b

/-- Left-to-right, non-overlapping removal of every occurrence of `.war`,
modelling Python `s.replace(".war", "")` as used to derive the exploded
webapp directory from the deployed artifact path. -/
def stripWarAll : List Char → List Char
  | [] => []
  | '.' :: 'w' :: 'a' :: 'r' :: rest => stripWarAll rest
  | c :: rest => c :: stripWarAll rest

/-- A site configuration: the ordered string-to-string mapping the tool
passes around (`site_config` dictionaries). -/
abbrev Config := List (String × String)

/-- Model of Python `dict.get(key, dflt)` on a `Config`. -/
def cfgGet (cfg : Config) (key dflt : String) : String :=
  match cfg.lookup key with
  | some v => v
  | none => dflt

/-- Outcome of one external process invocation (`subprocess.run`). -/
structure CmdResult where
  returncode : Int
  stdout : String
  stderr : String
deriving Repr, DecidableEq

/-! ## config_reader.py -/

/-- `validate_environment_config`: classifies `dao.db` into a namespace
and returns the configuration with every key prefixed, plus the
`db.scripts.path` entry; unsupported database kinds raise (modelled as
`Except.error`). -/
def prefixKeys (pre : String) (cfg : Config) : Config :=
  cfg.map (fun kv => (pre ++ "." ++ kv.1, kv.2))

def validate_environment_config (site_config : Config) : Except String Config :=
  let db_type := strToUpper (cfgGet site_config "dao.db" "")
  if strContains db_type "ORACLE" then
    Except.ok (prefixKeys "upd.environment1" site_config ++
      [("db.scripts.path", "src/main/resources/db/oracle")])
  else if strContains db_type "SQLSERVER" || strContains db_type "MSSQL" then
    Except.ok (prefixKeys "upd.environment2" site_config ++
      [("db.scripts.path", "src/main/resources/db/sqlserver")])
  else
    Except.error ("Tipo de base de datos no soportado: " ++ db_type)

/-! ## svn_manager.py -/

structure Credentials where
  username : String
  password : String
deriving Repr, DecidableEq

/-- The credentials `SVNManager.__init__` defaults to. -/
def defaultCredentials : Credentials := { username := "hudson", password := "hudson" }

/-- The repository URL hardcoded in `SVNManager.__init__`. -/
def svn_url : String := "https://localhost:443/svn/test_repo"

/-- The argument vector `handle_svn_operations` builds: `svn checkout` of the
hardcoded branch when no `.svn` marker exists at the local path, `svn update`
otherwise. -/
def svn_sync_command (cwd : String) (markerExists : Bool) (creds : Credentials) :
    List String :=
  let local_path := pjoin cwd "svn_temp"
  if markerExists then
    ["svn", "update", local_path,
     "--username", creds.username, "--password", creds.password,
     "--non-interactive", "--trust-server-cert"]
  else
    ["svn", "checkout", svn_url ++ "/branches/SVE_5_7_1_mhcp", local_path,
     "--username", creds.username, "--password", creds.password,
     "--non-interactive", "--trust-server-cert"]

structure SvnSyncResult where
  success : Bool
  command : List String
deriving Repr, DecidableEq

/-- `handle_svn_operations`: runs the sync command and succeeds iff the
process exits zero; any raised exception is swallowed into `False`
(`run = Except.error` models `subprocess.run` itself raising). -/
def handle_svn_operations (site_config : Config) (cwd : String)
    (markerExists : Bool) (creds : Credentials)
    (run : Except String CmdResult) : SvnSyncResult :=
  let cmd := svn_sync_command cwd markerExists creds
  match run with
  | Except.error _ => { success := false, command := cmd }
  | Except.ok r => { success := r.returncode == 0, command := cmd }

/-- The fixed tag-name prefix in `create_release_tag`. -/
def base_version : String := "SVE_10_0_"

/-- `last_version` as read from `last_tag_version.txt`: the parsed integer
content, or the baseline 39 when the file is absent or unparseable. -/
def readLastVersion (store : Option Int) : Int := store.getD 39

/-- The `svn copy` argument vector `create_release_tag` builds. -/
def svn_copy_command (full_version : String) (creds : Credentials) : List String :=
  ["svn", "copy",
   svn_url ++ "/branches/SVE_5_7_1_mhcp",
   svn_url ++ "/tags/" ++ full_version,
   "-m", "Creating release tag " ++ full_version,
   "--username", creds.username, "--password", creds.password,
   "--non-interactive", "--trust-server-cert"]

structure TagResult where
  success : Bool
  store : Option Int
  version : Int
  tag : String
  command : List String
deriving Repr, DecidableEq

/-- `create_release_tag`: reads the counter, adds 2, builds the tag name and
the copy command; on confirmed success (exit code zero) persists the new
counter, otherwise (nonzero exit, or `copyRun = Except.error` modelling an
exception) returns failure with the store untouched. -/
def create_release_tag (site_config : Config) (store : Option Int)
    (creds : Credentials) (copyRun : Except String CmdResult) : TagResult :=
  let last_version := readLastVersion store
  let new_version := last_version + 2
  let full_version := base_version ++ toString new_version
  let cmd := svn_copy_command full_version creds
  match copyRun with
  | Except.error _ =>
    { success := false, store := store, version := new_version,
      tag := full_version, command := cmd }
  | Except.ok r =>
    if r.returncode != 0 then
      { success := false, store := store, version := new_version,
        tag := full_version, command := cmd }
    else
      { success := true, store := some new_version, version := new_version,
        tag := full_version, command := cmd }

/-- External behaviour of the `svn checkout` issued by `checkout_project`. -/
structure CheckoutEnv where
  returncode : Int
  stderr : String
  dirEmpty : Bool
deriving Repr, DecidableEq

/-- `checkout_project`: raises on an empty project name, on a nonzero
checkout exit, and on an empty resulting directory; otherwise returns the
local path of the fresh checkout. -/
def checkout_project (project_name : String) (cwd : String)
    (env : CheckoutEnv) : Except String String :=
  if project_name == "" then
    Except.error "Nombre de proyecto no especificado"
  else
    let local_path := pjoin (pjoin cwd "projects") project_name
    if env.returncode != 0 then
      Except.error ("Error en checkout de SVN: " ++ env.stderr)
    else if env.dirEmpty then
      Except.error "El directorio de checkout esta vacio"
    else
      Except.ok local_path

/-! ## deployment_executor.py — filesystem model -/

/-- The filesystem fragment the executor touches: regular files with their
byte content, and directories. -/
structure FS where
  files : List (String × String)
  dirs : List String
deriving Repr, DecidableEq

def FS.fileContent (fs : FS) (p : String) : Option String := fs.files.lookup p

def FS.pathExists (fs : FS) (p : String) : Bool :=
  (fs.files.lookup p).isSome || fs.dirs.contains p

def FS.removeFile (fs : FS) (p : String) : FS :=
  { fs with files := fs.files.filter (fun kv => kv.1 != p) }

def FS.removeDir (fs : FS) (p : String) : FS :=
  { fs with dirs := fs.dirs.filter (fun d => d != p) }

def FS.writeFile (fs : FS) (p c : String) : FS :=
  { fs with files := (p, c) :: fs.files.filter (fun kv => kv.1 != p) }

/-! ## deployment_executor.py — Tomcat control -/

/-- Behaviour of one command attempt: it exits with a code, times out, or
raises. -/
inductive AttemptOutcome
  | exit (code : Int)
  | timeout
  | exc (msg : String)
deriving Repr, DecidableEq

/-- An attempt counts as successful iff the process exited zero. -/
def attemptSucceeds : AttemptOutcome → Bool
  | AttemptOutcome.exit code => code == 0
  | AttemptOutcome.timeout => false
  | AttemptOutcome.exc _ => false

/-- The retry loop of `_execute_tomcat_command`: walk the attempts in order,
stop at the first success. Returns how many attempts were launched and
whether the action succeeded; exhaustion yields failure, never an error. -/
def runStrategy : List AttemptOutcome → Nat × Bool
  | [] => (0, false)
  | o :: rest =>
    if attemptSucceeds o then (1, true)
    else
      let p := runStrategy rest
      (p.1 + 1, p.2)

/-- The Tomcat installation root hardcoded in `_manage_tomcat_operations`. -/
def tomcat_home : String := "C:/Program Files/Apache Software Foundation/Tomcat 9.0"

def webapps_dir : String := pjoin tomcat_home "webapps"

/-- The ordered stop strategies of `_execute_tomcat_command`. -/
def stop_methods (home : String) : List (List String) :=
  [[pjoin (pjoin home "bin") "shutdown.bat"],
   ["taskkill", "/F", "/IM", "java.exe", "/FI", "WINDOWTITLE eq Apache Tomcat"],
   ["net", "stop", "Apache Tomcat 9.0 Tomcat9"]]

/-- The ordered start strategies of `_execute_tomcat_command`. -/
def startup_scripts (home : String) : List String :=
  [pjoin (pjoin home "bin") "startup.bat",
   "net start Apache Tomcat 9.0 Tomcat9"]

/-- `_execute_tomcat_command`: dispatch on the action and run its strategy
list; `exec i` is the external outcome of the i-th attempt. An unknown
action falls off the end of the `if/elif` and returns Python `None`. -/
def execute_tomcat_command (action : String) (home : String)
    (exec : Nat → AttemptOutcome) : Option Bool :=
  if action == "stop" then
    some (runStrategy ((List.range (stop_methods home).length).map exec)).2
  else if action == "start" then
    some (runStrategy ((List.range (startup_scripts home).length).map exec)).2
  else
    none

/-! ## deployment_executor.py — WAR handling -/

/-- The filter `_manage_tomcat_operations` applies to `os.listdir(target)`:
ends in `.war`, does not end in `.original`, starts with the project name. -/
def war_filter (project_name : String) (f : String) : Bool :=
  strEndsWith f ".war" && !(strEndsWith f ".original") && strStartsWith f project_name

def find_wars (project_name : String) (listing : List String) : List String :=
  listing.filter (war_filter project_name)

/-- The timestamped backup destination `_backup_war` builds. -/
def backup_path (war_path timestamp : String) : String :=
  war_path ++ "." ++ timestamp ++ ".bak"

/-- `_backup_war`: copy the deployed artifact to its timestamped backup
path; a missing source makes the copy raise. -/
def backup_war (war_path timestamp : String) (fs : FS) : Except String FS :=
  match fs.fileContent war_path with
  | none => Except.error ("Error al crear backup de WAR: " ++ war_path)
  | some c => Except.ok (fs.writeFile (backup_path war_path timestamp) c)

/-- The inner helper `remove_existing_war` of `_manage_tomcat_operations`:
if the deployed WAR exists, delete it and then the exploded webapp
directory; any raised error (modelled by the two flags) yields `False`
with the filesystem as mutated so far. -/
def remove_existing_war (destination_war : String)
    (removeRaises rmtreeRaises : Bool) (fs : FS) : Bool × FS :=
  if fs.pathExists destination_war then
    if removeRaises then (false, fs)
    else
      let fs1 := fs.removeFile destination_war
      let webapp_dir := String.mk (stripWarAll destination_war.data)
      if fs1.pathExists webapp_dir then
        if rmtreeRaises then (false, fs1)
        else (true, fs1.removeDir webapp_dir)
      else (true, fs1)
  else (true, fs)

/-- Everything external that `_manage_tomcat_operations` consults. -/
structure TomcatEnv where
  cwd : String
  checkoutReturncode : Int
  checkoutStderr : String
  checkoutDirEmpty : Bool
  listingRaises : Bool
  listing : List String
  tomcatRunning : Bool
  stopExec : Nat → AttemptOutcome
  startExec : Nat → AttemptOutcome
  removeRaises : Bool
  rmtreeRaises : Bool
  copyRaises : Bool

structure TomcatOpsResult where
  success : Bool
  fs : FS
  warnings : List String
deriving Repr, DecidableEq

/-- The warning `_manage_tomcat_operations` logs when Tomcat is running and
the stop action does not report success (its result is otherwise unused). -/
def stop_warnings (running : Bool) (exec : Nat → AttemptOutcome) : List String :=
  if running then
    match execute_tomcat_command "stop" tomcat_home exec with
    | some true => []
    | _ => ["No se pudo detener Tomcat completamente"]
  else []

/-- The warning `_manage_tomcat_operations` logs when the start action does
not report success (its result is otherwise unused). -/
def start_warnings (exec : Nat → AttemptOutcome) : List String :=
  match execute_tomcat_command "start" tomcat_home exec with
  | some true => []
  | _ => ["No se pudo iniciar Tomcat completamente"]

/-- `_manage_tomcat_operations`: checkout the project named by the
`upd.environment1.war.name` key, pick the first matching WAR under
`target/`, optionally stop Tomcat (failure only logged), delete the
currently deployed WAR and its exploded directory, copy the new WAR in,
and start Tomcat (failure only logged). Every raised error is swallowed
into a `False` step result. -/
def manage_tomcat_operations (site_config : Config) (env : TomcatEnv)
    (fs : FS) : TomcatOpsResult :=
  let project_name := cfgGet site_config "upd.environment1.war.name" ""
  match checkout_project project_name env.cwd
      ⟨env.checkoutReturncode, env.checkoutStderr, env.checkoutDirEmpty⟩ with
  | Except.error _ => { success := false, fs := fs, warnings := [] }
  | Except.ok project_path =>
    if env.listingRaises then { success := false, fs := fs, warnings := [] }
    else
      match find_wars project_name env.listing with
      | [] => { success := false, fs := fs, warnings := [] }
      | w :: _ =>
        let war_path := pjoin (pjoin project_path "target") w
        let destination_war := pjoin webapps_dir (project_name ++ ".war")
        let stopWarnings := stop_warnings env.tomcatRunning env.stopExec
        let rm := remove_existing_war destination_war
          env.removeRaises env.rmtreeRaises fs
        if !rm.1 then { success := false, fs := rm.2, warnings := stopWarnings }
        else if env.copyRaises then
          { success := false, fs := rm.2, warnings := stopWarnings }
        else
          match FS.fileContent rm.2 war_path with
          | none => { success := false, fs := rm.2, warnings := stopWarnings }
          | some content =>
            let fs2 := FS.writeFile rm.2 destination_war content
            { success := true, fs := fs2,
              warnings := stopWarnings ++ start_warnings env.startExec }

/-! ## deployment_executor.py — orchestration -/

structure SvnOpsResult where
  success : Bool
  checkout : Bool
  tag_creation : Bool
deriving Repr, DecidableEq

/-- Everything external that `_manage_svn_operations` consults. -/
structure SvnEnv where
  cwd : String
  markerExists : Bool
  syncRun : Except String CmdResult
  tagStore : Option Int
  copyRun : Except String CmdResult

/-- `_manage_svn_operations`: checkout/update then tag creation; the step
succeeds iff both do. Also returns the tag counter store as left by
`create_release_tag`. -/
def manage_svn_operations (site_config : Config) (env : SvnEnv) :
    SvnOpsResult × Option Int :=
  let sync := handle_svn_operations site_config env.cwd env.markerExists
    defaultCredentials env.syncRun
  let tag := create_release_tag site_config env.tagStore
    defaultCredentials env.copyRun
  ({ success := sync.success && tag.success,
     checkout := sync.success, tag_creation := tag.success }, tag.store)

structure PrepResult where
  success : Bool
  tomcat_url : String
  tomcat_host : String
  modules : String
deriving Repr, DecidableEq

/-- `_prepare_tomcat_deployment`: extracts the Tomcat parameters and always
reports success (no mutation happens in this phase). -/
def prepare_tomcat_deployment (site_config : Config) : PrepResult :=
  { success := true,
    tomcat_url := cfgGet site_config "tomcat.url" "",
    tomcat_host := cfgGet site_config "tomcat.host" "",
    modules := cfgGet site_config "tomcat.modules" "" }

/-- The dictionary `execute_site_deployment` returns: overall flag, the
step results recorded so far (`none` when an exception struck before the
step was recorded), and the `error` diagnostic of a caught exception. -/
structure DeploymentResult where
  success : Bool
  svn_operations : Option SvnOpsResult
  tomcat_deployment : Option PrepResult
  tomcat_operations : Option Bool
  error : Option String
deriving Repr, DecidableEq

/-- The `try/except` skeleton of `execute_site_deployment`: run the three
phases in order; a phase that raises (an `Except.error` value) is caught,
its message recorded under `error`, and the initial `success = False`
stands; otherwise the overall flag is the conjunction of the three step
successes, computed after all three have run. -/
def execute_site_deployment_steps (svnStep : Except String SvnOpsResult)
    (prepStep : Except String PrepResult) (opsStep : Except String Bool) :
    DeploymentResult :=
  match svnStep with
  | Except.error e =>
    { success := false, svn_operations := none, tomcat_deployment := none,
      tomcat_operations := none, error := some e }
  | Except.ok s =>
    match prepStep with
    | Except.error e =>
      { success := false, svn_operations := some s, tomcat_deployment := none,
        tomcat_operations := none, error := some e }
    | Except.ok p =>
      match opsStep with
      | Except.error e =>
        { success := false, svn_operations := some s,
          tomcat_deployment := some p, tomcat_operations := none,
          error := some e }
      | Except.ok o =>
        { success := s.success && p.success && o,
          svn_operations := some s, tomcat_deployment := some p,
          tomcat_operations := some o, error := none }

/-- The orchestrator environment: external state for the SVN phase and the
Tomcat phase. -/
structure DeployEnv where
  svn : SvnEnv
  tomcat : TomcatEnv

/-- `execute_site_deployment` with the three concrete phases plugged in.
Each phase wraps its own body in `try/except`, so none of them ever
raises: every step arrives at the skeleton as `Except.ok`. -/
def execute_site_deployment (site_config : Config) (env : DeployEnv)
    (fs : FS) : DeploymentResult :=
  execute_site_deployment_steps
    (Except.ok (manage_svn_operations site_config env.svn).1)
    (Except.ok (prepare_tomcat_deployment site_config))
    (Except.ok (manage_tomcat_operations site_config env.tomcat fs).success)

/-- Modelled from the spec for comparison with the source (`.4.3` artifact
location): try the exact conventional filename first, and only when it is
absent scan the listing for artifact files that are not pre-packaging
intermediates, taking the first match. -/
def spec_locate_artifact (project_name : String) (listing : List String) :
    Option String :=
  let exact := project_name ++ ".war"
  if listing.contains exact then some exact
  else (listing.filter
    (fun f => strEndsWith f ".war" && !(strEndsWith f ".original"))).head?

/-! ## Concrete scenarios used to evaluate the embedding -/

/-- A validated configuration naming the deployable artifact `app`. -/
def appConfig : Config := [("upd.environment1.war.name", "app")]

/-- Every attempt of an action fails with exit code 1. -/
def execAllFail : Nat → AttemptOutcome := fun _ => AttemptOutcome.exit 1

/-- Every attempt of an action exits zero. -/
def execAllOk : Nat → AttemptOutcome := fun _ => AttemptOutcome.exit 0

/-- The deployed-artifact destination for project `app`. -/
def appDest : String := pjoin webapps_dir ("app" ++ ".war")

/-- The freshly built artifact for project `app` under a checkout at
`C:/work/projects/app`. -/
def appBuiltWar : String := "C:/work/projects/app/target/app.war"

/-- Scenario for the swap: checkout, listing, removal and copy all succeed;
Tomcat is not running, so stop is skipped, and start succeeds. -/
def swapEnv : TomcatEnv :=
  { cwd := "C:/work", checkoutReturncode := 0, checkoutStderr := "",
    checkoutDirEmpty := false, listingRaises := false, listing := ["app.war"],
    tomcatRunning := false, stopExec := execAllFail, startExec := execAllOk,
    removeRaises := false, rmtreeRaises := false, copyRaises := false }

/-- Initial filesystem for the swap scenario: an old artifact is deployed
(with its exploded directory) and a new artifact was just built. -/
def swapFs : FS :=
  { files := [(appDest, "OLDBYTES"), (appBuiltWar, "NEWBYTES")],
    dirs := ["C:/Program Files/Apache Software Foundation/Tomcat 9.0/webapps/app"] }

/-- Scenario for soft stop/start failures: Tomcat is running, every stop and
start attempt fails, everything else succeeds. -/
def softFailEnv : TomcatEnv :=
  { cwd := "C:/work", checkoutReturncode := 0, checkoutStderr := "",
    checkoutDirEmpty := false, listingRaises := false, listing := ["app.war"],
    tomcatRunning := true, stopExec := execAllFail, startExec := execAllFail,
    removeRaises := false, rmtreeRaises := false, copyRaises := false }

/-- Filesystem for the soft-failure scenario: only the new artifact exists. -/
def softFailFs : FS := { files := [(appBuiltWar, "NEWBYTES")], dirs := [] }

/-- A SQLSERVER-classified site configuration, before validation. -/
def mssqlConfig : Config := [("dao.db", "SQLSERVER"), ("war.name", "app")]

/-- `mssqlConfig` after `validate_environment_config`. -/
def mssqlValidated : Config :=
  [("upd.environment2.dao.db", "SQLSERVER"),
   ("upd.environment2.war.name", "app"),
   ("db.scripts.path", "src/main/resources/db/sqlserver")]

/-! ## Theorems -/

/-- C10: `handle_svn_operations` and `create_release_tag` do not depend on
their `site_config` argument: for any two site configurations, given the
same working directory, checkout marker, credentials, external command
outcomes and counter-store state, both operations build identical commands
and return identical results. -/
theorem claim10_svn_operations_ignore_site_config
    (cfg1 cfg2 : Config) (cwd : String) (markerExists : Bool)
    (creds : Credentials) (syncRun : Except String CmdResult)
    (store : Option Int) (copyRun : Except String CmdResult) :
    handle_svn_operations cfg1 cwd markerExists creds syncRun =
      handle_svn_operations cfg2 cwd markerExists creds syncRun ∧
    create_release_tag cfg1 store creds copyRun =
      create_release_tag cfg2 store creds copyRun :=
  ⟨rfl, rfl⟩

/-- C5: the overall success flag of the `DeploymentResult` returned by
`execute_site_deployment` equals the conjunction of the three step
successes, all three step records are populated, and no error is
recorded — the flag is computed only after all three phases have run. -/
theorem claim5_overall_success_is_conjunction
    (cfg : Config) (env : DeployEnv) (fs : FS) :
    (execute_site_deployment cfg env fs).success =
      ((manage_svn_operations cfg env.svn).1.success &&
       (prepare_tomcat_deployment cfg).success &&
       (manage_tomcat_operations cfg env.tomcat fs).success) ∧
    (execute_site_deployment cfg env fs).svn_operations =
      some (manage_svn_operations cfg env.svn).1 ∧
    (execute_site_deployment cfg env fs).tomcat_deployment =
      some (prepare_tomcat_deployment cfg) ∧
    (execute_site_deployment cfg env fs).tomcat_operations =
      some (manage_tomcat_operations cfg env.tomcat fs).success ∧
    (execute_site_deployment cfg env fs).error = none :=
  ⟨rfl, rfl, rfl, rfl, rfl⟩

/-- C2: when the tag-copy command fails (nonzero exit, or an exception
modelled by `Except.error`), `create_release_tag` returns failure and
leaves the persisted counter store untouched; conversely the store is only
ever changed by a call that returns success. -/
theorem claim2_failed_copy_leaves_counter_untouched
    (cfg : Config) (store : Option Int) (creds : Credentials)
    (copyRun : Except String CmdResult) :
    ((∀ r : CmdResult, copyRun = Except.ok r → r.returncode ≠ 0) →
      (create_release_tag cfg store creds copyRun).success = false ∧
      (create_release_tag cfg store creds copyRun).store = store) ∧
    ((create_release_tag cfg store creds copyRun).store ≠ store →
      (create_release_tag cfg store creds copyRun).success = true) := by
  constructor
  · intro h
    cases copyRun with
    | error e => exact ⟨rfl, rfl⟩
    | ok r =>
      have hr : r.returncode ≠ 0 := h r rfl
      simp only [create_release_tag]
      rw [if_pos (by simpa using hr)]
      exact ⟨rfl, rfl⟩
  · intro h
    cases copyRun with
    | error e => exact absurd rfl h
    | ok r =>
      by_cases hr : r.returncode = 0
      · simp only [create_release_tag]
        rw [if_neg (by simpa using hr)]
      · exfalso
        apply h
        simp only [create_release_tag]
        rw [if_pos (by simpa using hr)]

/-- Witness for C2 at a concrete failing copy (exit code 1, store holding 10). -/
theorem claim2_witness :
    (create_release_tag [] (some 10) defaultCredentials
      (Except.ok ⟨1, "", "err"⟩)).success = false ∧
    (create_release_tag [] (some 10) defaultCredentials
      (Except.ok ⟨1, "", "err"⟩)).store = some 10 :=
  (claim2_failed_copy_leaves_counter_untouched [] (some 10) defaultCredentials
    (Except.ok ⟨1, "", "err"⟩)).1 (by intro r hr; cases hr; decide)

/-- C3: a successful `create_release_tag` advances the counter read from
the store (baseline 39 when absent/unparseable) by exactly 2, names the tag
`base_version ++ (v+2)` and persists `v+2`; hence two consecutive
successful invocations produce strictly increasing versions. -/
theorem claim3_successive_tags_strictly_increase
    (cfg1 cfg2 : Config) (store : Option Int) (creds : Credentials)
    (run1 run2 : Except String CmdResult)
    (h1 : (create_release_tag cfg1 store creds run1).success = true)
    (h2 : (create_release_tag cfg2
      (create_release_tag cfg1 store creds run1).store creds run2).success = true) :
    (create_release_tag cfg1 store creds run1).version =
      readLastVersion store + 2 ∧
    (create_release_tag cfg1 store creds run1).tag =
      base_version ++ toString ((create_release_tag cfg1 store creds run1).version) ∧
    (create_release_tag cfg1 store creds run1).store =
      some ((create_release_tag cfg1 store creds run1).version) ∧
    (create_release_tag cfg2
      (create_release_tag cfg1 store creds run1).store creds run2).version =
      (create_release_tag cfg1 store creds run1).version + 2 ∧
    (create_release_tag cfg1 store creds run1).version <
      (create_release_tag cfg2
        (create_release_tag cfg1 store creds run1).store creds run2).version := by
  cases run1 with
  | error e => exact absurd h1 (by simp [create_release_tag])
  | ok r1 =>
    by_cases hr1 : r1.returncode = 0
    · have hs1 : (create_release_tag cfg1 store creds (Except.ok r1)).store =
          some (readLastVersion store + 2) := by
        simp only [create_release_tag]
        rw [if_neg (by simpa using hr1)]
      have hv1 : (create_release_tag cfg1 store creds (Except.ok r1)).version =
          readLastVersion store + 2 := by
        simp only [create_release_tag]
        cases hc : r1.returncode != 0 <;> simp
      have ht1 : (create_release_tag cfg1 store creds (Except.ok r1)).tag =
          base_version ++ toString (readLastVersion store + 2) := by
        simp only [create_release_tag]
        cases hc : r1.returncode != 0 <;> simp
      have hv2 : (create_release_tag cfg2
          (create_release_tag cfg1 store creds (Except.ok r1)).store creds run2).version =
          readLastVersion store + 4 := by
        rw [hs1]
        cases run2 with
        | error e => simp [create_release_tag, readLastVersion]; ring
        | ok r2 =>
          simp only [create_release_tag, readLastVersion, Option.getD_some]
          cases hc : r2.returncode != 0 <;> simp <;> ring
      refine ⟨hv1, by rw [ht1, hv1], by rw [hs1, hv1], by rw [hv2, hv1]; ring, ?_⟩
      rw [hv2, hv1]
      omega
    · exfalso
      have : (create_release_tag cfg1 store creds (Except.ok r1)).success = false := by
        simp only [create_release_tag]
        rw [if_pos (by simpa using hr1)]
      rw [this] at h1
      exact Bool.false_ne_true h1

/-- If every attempt fails, the strategy loop launches all of them and
reports failure. -/
theorem runStrategy_all_fail (outcomes : List AttemptOutcome)
    (h : ∀ j (hj : j < outcomes.length),
      attemptSucceeds (outcomes.get ⟨j, hj⟩) = false) :
    runStrategy outcomes = (outcomes.length, false) := by
  induction outcomes with
  | nil => rfl
  | cons o rest ih =>
    have h0 : attemptSucceeds o = false := h 0 (by simp)
    have hrest : ∀ j (hj : j < rest.length),
        attemptSucceeds (rest.get ⟨j, hj⟩) = false := by
      intro j hj
      exact h (j + 1) (by simpa using Nat.succ_lt_succ hj)
    simp [runStrategy, h0, ih hrest]

/-- If attempt `k` is the first to succeed, the strategy loop launches
exactly attempts `0..k` and reports success. -/
theorem runStrategy_first_success :
    ∀ (outcomes : List AttemptOutcome) (k : Nat) (hk : k < outcomes.length),
    attemptSucceeds (outcomes.get ⟨k, hk⟩) = true →
    (∀ j (hj : j < outcomes.length), j < k →
      attemptSucceeds (outcomes.get ⟨j, hj⟩) = false) →
    runStrategy outcomes = (k + 1, true) := by
  intro outcomes
  induction outcomes with
  | nil => intro k hk; exact absurd hk (by simp)
  | cons o rest ih =>
    intro k hk hsucc hbefore
    cases k with
    | zero => simp only [List.get] at hsucc; simp [runStrategy, hsucc]
    | succ k =>
      have h0 : attemptSucceeds o = false :=
        hbefore 0 (by simp) (Nat.succ_pos k)
      have hk2 : k < rest.length := by simpa using Nat.lt_of_succ_lt_succ hk
      have hrec := ih k hk2 (by simpa using hsucc)
        (fun j hj hjk =>
          hbefore (j + 1) (by simpa using Nat.succ_lt_succ hj)
            (Nat.succ_lt_succ hjk))
      simp [runStrategy, h0, hrec]

/-- C4: for an ordered list of command attempts run by the strategy loop of
`_execute_tomcat_command`, if attempt `k` (0-based) is the first whose
process exits zero, exactly attempts `0..k` are launched and the runner
reports success; if every attempt fails or times out, all are launched and
the runner returns failure (a value, never a raised error). -/
theorem claim4_first_success_short_circuits (outcomes : List AttemptOutcome) :
    (∀ k (hk : k < outcomes.length),
        attemptSucceeds (outcomes.get ⟨k, hk⟩) = true →
        (∀ j (hj : j < outcomes.length), j < k →
          attemptSucceeds (outcomes.get ⟨j, hj⟩) = false) →
        runStrategy outcomes = (k + 1, true)) ∧
    ((∀ j (hj : j < outcomes.length),
        attemptSucceeds (outcomes.get ⟨j, hj⟩) = false) →
      runStrategy outcomes = (outcomes.length, false)) :=
  ⟨fun k hk h1 h2 => runStrategy_first_success outcomes k hk h1 h2,
   fun h => runStrategy_all_fail outcomes h⟩

/-- Witness for C4: the third attempt is the first success, so all three are
launched and the run succeeds; and a run where both attempts fail reports
failure after launching both. -/
theorem claim4_witness :
    runStrategy [AttemptOutcome.exit 1, AttemptOutcome.timeout,
      AttemptOutcome.exit 0] = (3, true) ∧
    runStrategy [AttemptOutcome.exit 1, AttemptOutcome.exc "boom"] = (2, false) :=
  ⟨(claim4_first_success_short_circuits _).1 2 (by decide) (by decide) (by decide),
   (claim4_first_success_short_circuits _).2 (by decide)⟩

/-- C8: the orchestrator skeleton always returns a `DeploymentResult`; a
phase that raises is caught, its message is recorded under `error`, the
result keeps `success = false`, and the steps recorded are exactly those
that ran before the exception. -/
theorem claim8_orchestrator_catches_phase_exceptions
    (svnStep : Except String SvnOpsResult) (prepStep : Except String PrepResult)
    (opsStep : Except String Bool) :
    ((svnStep.isOk && prepStep.isOk && opsStep.isOk) = false →
      (execute_site_deployment_steps svnStep prepStep opsStep).success = false ∧
      (execute_site_deployment_steps svnStep prepStep opsStep).error.isSome = true) ∧
    (∀ e, svnStep = Except.error e →
      execute_site_deployment_steps svnStep prepStep opsStep =
        ⟨false, none, none, none, some e⟩) ∧
    (∀ e s, svnStep = Except.ok s → prepStep = Except.error e →
      execute_site_deployment_steps svnStep prepStep opsStep =
        ⟨false, some s, none, none, some e⟩) ∧
    (∀ e s p, svnStep = Except.ok s → prepStep = Except.ok p →
      opsStep = Except.error e →
      execute_site_deployment_steps svnStep prepStep opsStep =
        ⟨false, some s, some p, none, some e⟩) := by
  refine ⟨?_, ?_, ?_, ?_⟩
  · intro h
    cases svnStep with
    | error e => exact ⟨rfl, rfl⟩
    | ok s =>
      cases prepStep with
      | error e => exact ⟨rfl, rfl⟩
      | ok p =>
        cases opsStep with
        | error e => exact ⟨rfl, rfl⟩
        | ok o => simp [Except.isOk, Except.toBool] at h
  · intro e he
    subst he
    rfl
  · intro e s hs hp
    subst hs
    subst hp
    rfl
  · intro e s p hs hp ho
    subst hs
    subst hp
    subst ho
    rfl

/-- Witness for C8: a raising Tomcat-operations phase is caught and recorded
after the first two steps ran. -/
theorem claim8_witness :
    execute_site_deployment_steps
      (Except.ok ⟨true, true, true⟩)
      (Except.ok ⟨true, "u", "h", "m"⟩)
      (Except.error "boom") =
    ⟨false, some ⟨true, true, true⟩, some ⟨true, "u", "h", "m"⟩, none,
      some "boom"⟩ :=
  (claim8_orchestrator_catches_phase_exceptions
    (Except.ok ⟨true, true, true⟩) (Except.ok ⟨true, "u", "h", "m"⟩)
    (Except.error "boom")).2.2.2 "boom" ⟨true, true, true⟩
    ⟨true, "u", "h", "m"⟩ rfl rfl rfl

/-- C7 counterexample: in a listing where the exact conventional filename
`app.war` is present alongside an earlier-listed candidate, the code scans
unconditionally and picks the earlier candidate, while locating by
exact-filename-first (the claim, modelled by `spec_locate_artifact`) would
pick `app.war`. -/
theorem claim7_counterexample :
    ("app" ++ ".war") ∈ ["app-1.0.war", "app.war"] ∧
    (find_wars "app" ["app-1.0.war", "app.war"]).head? = some "app-1.0.war" ∧
    spec_locate_artifact "app" ["app-1.0.war", "app.war"] = some "app.war" ∧
    (find_wars "app" ["app-1.0.war", "app.war"]).head? ≠
      spec_locate_artifact "app" ["app-1.0.war", "app.war"] := by
  decide

/-- C7 (amended): the artifact is located by a single unconditional scan of
the directory listing — files ending in `.war`, not ending in `.original`
and starting with the project name — and the selected artifact is exactly
the first file in listing order satisfying that filter; no exact-filename
check precedes the scan. -/
theorem claim7_scan_picks_first_match (pn : String) (listing : List String)
    (w : String) (h : (find_wars pn listing).head? = some w) :
    war_filter pn w = true ∧
    ∃ i, ∃ hi : i < listing.length, listing.get ⟨i, hi⟩ = w ∧
      ∀ j (hj : j < listing.length), j < i →
        war_filter pn (listing.get ⟨j, hj⟩) = false := by
  induction listing with
  | nil => exact absurd h (by simp [find_wars])
  | cons x xs ih =>
    by_cases hx : war_filter pn x = true
    · have hw : w = x := by
        simp [find_wars, List.filter, hx] at h
        exact h.symm
      subst hw
      exact ⟨hx, 0, by simp, rfl, fun j hj hj0 => absurd hj0 (by omega)⟩
    · have htail : (find_wars pn xs).head? = some w := by
        simpa [find_wars, List.filter, hx] using h
      obtain ⟨hfw, i, hi, hget, hbefore⟩ := ih htail
      refine ⟨hfw, i + 1, by simpa using Nat.succ_lt_succ hi, hget, ?_⟩
      intro j hj hji
      cases j with
      | zero => simpa using hx
      | succ j =>
        exact hbefore j (by simpa using Nat.lt_of_succ_lt_succ hj)
          (Nat.lt_of_succ_lt_succ hji)

/-- Witness for C7 (amended): the first listed file failing the filter is
skipped and the first match is selected. -/
theorem claim7_witness :
    war_filter "app" "app-1.0.war" = true ∧
    ∃ i, ∃ hi : i < (["notes.txt", "app-1.0.war", "app.war"] : List String).length,
      (["notes.txt", "app-1.0.war", "app.war"] : List String).get ⟨i, hi⟩ =
        "app-1.0.war" ∧
      ∀ j (hj : j < (["notes.txt", "app-1.0.war", "app.war"] : List String).length),
        j < i → war_filter "app"
          ((["notes.txt", "app-1.0.war", "app.war"] : List String).get ⟨j, hj⟩) = false :=
  claim7_scan_picks_first_match "app" ["notes.txt", "app-1.0.war", "app.war"]
    "app-1.0.war" (by decide)

/-- No key produced by the `upd.environment2` prefixing can collide with
the Oracle-namespace key the Tomcat phase looks up. -/
theorem env2_key_ne_oracle_war_name (k : String) :
    ("upd.environment2" ++ "." ++ k) ≠ "upd.environment1.war.name" := by
  intro h
  have h17 : (("upd.environment2" ++ "." ++ k).data).take 17 =
      ("upd.environment1.war.name".data).take 17 := by rw [h]
  have hpre : ("upd.environment2" ++ ".") = "upd.environment2." := by decide
  rw [String.data_append, hpre, List.take_left' (by decide)] at h17
  exact absurd h17 (by decide)

/-- Looking up the Oracle-namespace artifact key in a configuration that
went through the SQLSERVER branch of `validate_environment_config` yields
the default empty string. -/
theorem cfgGet_env2_war_name (cfg : Config) :
    cfgGet (prefixKeys "upd.environment2" cfg ++
        [("db.scripts.path", "src/main/resources/db/sqlserver")])
      "upd.environment1.war.name" "" = "" := by
  unfold cfgGet
  induction cfg with
  | nil => decide
  | cons kv rest ih =>
    have hne : ("upd.environment1.war.name" ==
        ("upd.environment2" ++ "." ++ kv.1)) = false :=
      beq_eq_false_iff_ne.mpr (fun h => env2_key_ne_oracle_war_name kv.1 h.symm)
    simpa [prefixKeys, List.lookup, hne] using ih

/-- C9: a site classified as SQLSERVER/MSSQL gets the `upd.environment2`
prefix on every key, so the Tomcat phase's lookup of
`upd.environment1.war.name` yields the empty string, `checkout_project`
raises on the empty project name, and the service-lifecycle step returns
false for every environment and filesystem — only Oracle-classified sites
can deploy. -/
theorem claim9_sqlserver_sites_never_deploy
    (cfg vc : Config) (env : TomcatEnv) (fs : FS)
    (hora : strContains (strToUpper (cfgGet cfg "dao.db" "")) "ORACLE" = false)
    (hsql : (strContains (strToUpper (cfgGet cfg "dao.db" "")) "SQLSERVER" ||
             strContains (strToUpper (cfgGet cfg "dao.db" "")) "MSSQL") = true)
    (hv : validate_environment_config cfg = Except.ok vc) :
    cfgGet vc "upd.environment1.war.name" "" = "" ∧
    (manage_tomcat_operations vc env fs).success = false := by
  have hvc : vc = prefixKeys "upd.environment2" cfg ++
      [("db.scripts.path", "src/main/resources/db/sqlserver")] := by
    simp only [validate_environment_config, hora, hsql] at hv
    simp at hv
    exact hv.symm
  have hname : cfgGet vc "upd.environment1.war.name" "" = "" := by
    rw [hvc]
    exact cfgGet_env2_war_name cfg
  refine ⟨hname, ?_⟩
  unfold manage_tomcat_operations
  rw [hname]
  rfl

/-- Witness for C9: a concrete SQLSERVER site, validated, makes the
service-lifecycle step fail. -/
theorem claim9_witness :
    cfgGet mssqlValidated "upd.environment1.war.name" "" = "" ∧
    (manage_tomcat_operations mssqlValidated softFailEnv ⟨[], []⟩).success = false :=
  claim9_sqlserver_sites_never_deploy mssqlConfig mssqlValidated softFailEnv
    ⟨[], []⟩ (by decide) (by decide) (by rfl)

/-- Removing a directory never changes any file's content. -/
theorem FS.fileContent_removeDir (fs : FS) (d p : String) :
    (fs.removeDir d).fileContent p = fs.fileContent p := rfl

/-- Removing one file keeps every other path's content. -/
theorem FS.fileContent_removeFile_ne (fs : FS) (q p : String) (h : p ≠ q) :
    (fs.removeFile q).fileContent p = fs.fileContent p := by
  show List.lookup p (fs.files.filter (fun kv => kv.1 != q)) =
    List.lookup p fs.files
  induction fs.files with
  | nil => rfl
  | cons kv t ih =>
    have hpq : (p == q) = false := beq_eq_false_iff_ne.mpr h
    by_cases hk : kv.1 = q
    · have hpk : (p == kv.1) = false := beq_eq_false_iff_ne.mpr (hk ▸ h)
      simp [List.filter, List.lookup, hk, hpk, hpq, ih]
    · have hkq : (kv.1 != q) = true := by simpa using hk
      by_cases hpk : p = kv.1
      · simp [List.filter, List.lookup, hkq, hpk]
      · have hpk2 : (p == kv.1) = false := beq_eq_false_iff_ne.mpr hpk
        simp [List.filter, List.lookup, hkq, hpk2, ih]

/-- With no removal error injected, `remove_existing_war` reports success. -/
theorem remove_existing_war_ok (d : String) (fs : FS) :
    (remove_existing_war d false false fs).1 = true := by
  simp only [remove_existing_war, Bool.false_eq_true, if_false]
  split
  · split <;> rfl
  · rfl

/-- `remove_existing_war` touches only the deployed artifact and its
exploded directory: every other file keeps its content. -/
theorem remove_existing_war_keeps_other_files (d : String) (rr rt : Bool)
    (fs : FS) (p : String) (h : p ≠ d) :
    ((remove_existing_war d rr rt fs).2).fileContent p = fs.fileContent p := by
  simp only [remove_existing_war]
  split
  · split
    · rfl
    · split
      · split
        · exact FS.fileContent_removeFile_ne fs d p h
        · rw [FS.fileContent_removeDir]
          exact FS.fileContent_removeFile_ne fs d p h
      · exact FS.fileContent_removeFile_ne fs d p h
  · rfl

/-- A checkout with a nonempty project name, exit code zero and a nonempty
resulting directory returns the project path. -/
theorem checkout_project_ok (pn cwd s : String) (h : pn ≠ "") :
    checkout_project pn cwd ⟨0, s, false⟩ =
      Except.ok (pjoin (pjoin cwd "projects") pn) := by
  unfold checkout_project
  rw [if_neg (by simpa using h)]
  rfl

/-- C6: when checkout, artifact discovery, stale-artifact removal and the
new-artifact copy all succeed, the service-lifecycle step returns true for
every stop/start behaviour — including Tomcat not running (stop skipped)
and every stop or start attempt failing — and a failed stop while Tomcat
runs is recorded as a warning only. -/
theorem claim6_soft_stop_start_failures_nonfatal
    (cfg : Config) (env : TomcatEnv) (fs : FS) (w : String) (rest : List String)
    (content : String)
    (hname : cfgGet cfg "upd.environment1.war.name" "" ≠ "")
    (hrc : env.checkoutReturncode = 0)
    (hde : env.checkoutDirEmpty = false)
    (hlr : env.listingRaises = false)
    (hwars : find_wars (cfgGet cfg "upd.environment1.war.name" "") env.listing =
      w :: rest)
    (hrm : env.removeRaises = false)
    (hrt : env.rmtreeRaises = false)
    (hcp : env.copyRaises = false)
    (hcontent : fs.fileContent
      (pjoin (pjoin (pjoin (pjoin env.cwd "projects")
        (cfgGet cfg "upd.environment1.war.name" "")) "target") w) = some content)
    (hne : pjoin (pjoin (pjoin (pjoin env.cwd "projects")
        (cfgGet cfg "upd.environment1.war.name" "")) "target") w ≠
      pjoin webapps_dir ((cfgGet cfg "upd.environment1.war.name" "") ++ ".war")) :
    (manage_tomcat_operations cfg env fs).success = true ∧
    (env.tomcatRunning = true →
      execute_tomcat_command "stop" tomcat_home env.stopExec = some false →
      "No se pudo detener Tomcat completamente" ∈
        (manage_tomcat_operations cfg env fs).warnings) := by
  have hkey : manage_tomcat_operations cfg env fs =
      { success := true,
        fs := FS.writeFile
          (remove_existing_war
            (pjoin webapps_dir
              ((cfgGet cfg "upd.environment1.war.name" "") ++ ".war"))
            false false fs).2
          (pjoin webapps_dir
            ((cfgGet cfg "upd.environment1.war.name" "") ++ ".war"))
          content,
        warnings := stop_warnings env.tomcatRunning env.stopExec ++
          start_warnings env.startExec } := by
    have hcont2 : ((remove_existing_war
        (pjoin webapps_dir ((cfgGet cfg "upd.environment1.war.name" "") ++ ".war"))
        false false fs).2).fileContent
        (pjoin (pjoin (pjoin (pjoin env.cwd "projects")
          (cfgGet cfg "upd.environment1.war.name" "")) "target") w) =
        some content := by
      rw [remove_existing_war_keeps_other_files _ _ _ _ _ hne]
      exact hcontent
    simp only [manage_tomcat_operations]
    rw [hrc, hde, hlr, hrm, hrt, hcp,
      checkout_project_ok (cfgGet cfg "upd.environment1.war.name" "")
        env.cwd env.checkoutStderr hname]
    simp only [hwars, Bool.false_eq_true, if_false,
      remove_existing_war_ok, Bool.not_true, hcont2]
  refine ⟨by rw [hkey], ?_⟩
  intro hrun hstop
  rw [hkey]
  show "No se pudo detener Tomcat completamente" ∈
    stop_warnings env.tomcatRunning env.stopExec ++ start_warnings env.startExec
  rw [hrun]
  unfold stop_warnings
  rw [hstop]
  simp

/-- Witness for C6: Tomcat is running, every stop and start attempt fails,
yet the step succeeds and the stop failure is only a warning. -/
theorem claim6_witness :
    (manage_tomcat_operations appConfig softFailEnv softFailFs).success = true ∧
    "No se pudo detener Tomcat completamente" ∈
      (manage_tomcat_operations appConfig softFailEnv softFailFs).warnings :=
  let h := claim6_soft_stop_start_failures_nonfatal appConfig softFailEnv
    softFailFs "app.war" [] "NEWBYTES" (by decide) (by decide) (by decide)
    (by decide) (by decide) (by decide) (by decide) (by decide) (by decide)
    (by decide)
  ⟨h.1, h.2 (by decide) (by decide)⟩

/-- C1 (code bug): a swap in which an artifact is already deployed and every
sub-step succeeds replaces the destination with the new artifact's bytes but
creates no backup whatsoever — no file with the old artifact's bytes and no
`.bak` path survives — even though the unused helper `_backup_war` would
have produced exactly the timestamped backup the specification describes. -/
theorem claim1_swap_never_backs_up :
    swapFs.pathExists appDest = true ∧
    swapFs.fileContent appDest = some "OLDBYTES" ∧
    (manage_tomcat_operations appConfig swapEnv swapFs).success = true ∧
    (manage_tomcat_operations appConfig swapEnv swapFs).fs.fileContent appDest =
      some "NEWBYTES" ∧
    ((manage_tomcat_operations appConfig swapEnv swapFs).fs.files.filter
      (fun kv => kv.2 == "OLDBYTES")) = [] ∧
    ((manage_tomcat_operations appConfig swapEnv swapFs).fs.files.filter
      (fun kv => strEndsWith kv.1 ".bak")) = [] ∧
    ((backup_war appDest "20250101_120000" swapFs).toOption.map
      (fun fs2 => fs2.fileContent (backup_path appDest "20250101_120000"))) =
      some (some "OLDBYTES") := by
  decide

/-- Witness for C3: from an absent store, two successful tag creations yield
versions 41 then 43. -/
theorem claim3_witness :
    (create_release_tag [] none defaultCredentials
      (Except.ok ⟨0, "", ""⟩)).version = readLastVersion none + 2 ∧
    (create_release_tag [] none defaultCredentials
      (Except.ok ⟨0, "", ""⟩)).tag =
      base_version ++ toString ((create_release_tag [] none defaultCredentials
        (Except.ok ⟨0, "", ""⟩)).version) ∧
    (create_release_tag [] none defaultCredentials
      (Except.ok ⟨0, "", ""⟩)).store =
      some ((create_release_tag [] none defaultCredentials
        (Except.ok ⟨0, "", ""⟩)).version) ∧
    (create_release_tag []
      ((create_release_tag [] none defaultCredentials
        (Except.ok ⟨0, "", ""⟩)).store) defaultCredentials
      (Except.ok ⟨0, "", ""⟩)).version =
      (create_release_tag [] none defaultCredentials
        (Except.ok ⟨0, "", ""⟩)).version + 2 ∧
    (create_release_tag [] none defaultCredentials
      (Except.ok ⟨0, "", ""⟩)).version <
      (create_release_tag []
        ((create_release_tag [] none defaultCredentials
          (Except.ok ⟨0, "", ""⟩)).store) defaultCredentials
        (Except.ok ⟨0, "", ""⟩)).version :=
  claim3_successive_tags_strictly_increase [] [] none defaultCredentials
    (Except.ok ⟨0, "", ""⟩) (Except.ok ⟨0, "", ""⟩) (by decide) (by decide)
